import Mathlib

set_option maxRecDepth 100000

/-!
# Verification of the hierarchical document-indexing and caching pipeline

Shallow embedding of the core pipeline of the repository
(`streamlit_app.py` = "v5" and `streamlit_app_prompt_assist.py` = "v6"):

* content fingerprinting (`compute_documents_hash`),
* text extraction (`extract_text_from_pdf`, `extract_text_with_metadata`),
* adaptive chunking (`smart_chunking`),
* the hierarchical index builder
  (`create_hierarchical_vectorstore_with_progress`),
* the hash-gated index cache (`process_documents` in v5,
  `process_documents_with_caching` in v6),
* the retrieval composer (`create_ensemble_retriever`,
  `create_compressed_retriever`).

Modelling conventions:

* A directory is a list of files in filesystem-enumeration order; each file
  carries its name, its raw bytes, and the result of PDF parsing
  (`Except Unit (List String)`, one string per page; `.error` models
  `PdfReader`/`extract_text` raising).
* SHA-256 is modelled as an injective function, i.e. the digest is
  identified with the byte stream fed to `hash_object.update` (file
  contents concatenated in sorted-filename order).  Two digests are equal
  in the model iff the hashed byte streams are equal.
* Python string primitives (`len`, `.strip()`, `.lower()`,
  `.endswith(...)`, `" ".join(...)`, string ordering by code point) are
  modelled structurally on the character list underlying a `String`, so
  that every definition evaluates by kernel reduction.
* External collaborators (the `RecursiveCharacterTextSplitter`, the
  summarising LLM call, the FAISS vector stores) are parameters of the
  definitions; a vector store is identified with the (texts, metadata)
  it was built from, and `FAISS.save_local`/`load_local` with writing and
  reading that data.
-/

/-! ## Python string primitives, modelled on `List Char` -/

/-- `len(s)` for a Python string. -/
def strLen (s : String) : Nat := s.data.length

/-- Python whitespace for `str.strip()`: space and `\t\n\v\f\r`. -/
def pyIsSpace (c : Char) : Bool := (c.toNat == 32) || (9 ≤ c.toNat && c.toNat ≤ 13)

/-- `str.strip()` on the underlying character list. -/
def pyStripChars (l : List Char) : List Char :=
  ((l.dropWhile pyIsSpace).reverse.dropWhile pyIsSpace).reverse

/-- `str.strip()`. -/
def pyStrip (s : String) : String := ⟨pyStripChars s.data⟩

/-- ASCII `str.lower()` on one character. -/
def lowerChar (c : Char) : Char :=
  if c.isUpper then Char.ofNat (c.toNat + 32) else c

/-- `" ".join(parts)` (and any other separator). -/
def joinSep (sep : String) : List String → String
  | [] => ""
  | [s] => s
  | s :: rest => s ++ sep ++ joinSep sep rest

/-- Python string comparison: lexicographic by code point. -/
def lexLe : List Char → List Char → Bool
  | [], _ => true
  | _ :: _, [] => false
  | a :: as, b :: bs =>
    if a.toNat < b.toNat then true
    else if b.toNat < a.toNat then false
    else lexLe as bs

/-- The ordering `sorted(...)` uses on filenames. -/
def nameLe (a b : String) : Prop := lexLe a.data b.data = true

instance : DecidableRel nameLe := fun a b =>
  inferInstanceAs (Decidable (lexLe a.data b.data = true))

theorem charToNat_inj {a b : Char} (h : a.toNat = b.toNat) : a = b := by
  cases a with | mk v hv => cases b with | mk w hw =>
  simp only [Char.toNat] at h
  congr 1
  cases v; cases w
  simp only [UInt32.toNat] at h
  congr 1
  exact BitVec.eq_of_toNat_eq h

theorem lexLe_total (l₁ l₂ : List Char) :
    lexLe l₁ l₂ = true ∨ lexLe l₂ l₁ = true := by
  induction l₁ generalizing l₂ with
  | nil => exact Or.inl rfl
  | cons a as ih =>
    cases l₂ with
    | nil => exact Or.inr rfl
    | cons b bs =>
      simp only [lexLe]
      rcases Nat.lt_trichotomy a.toNat b.toNat with h | h | h
      · simp [h]
      · simp only [h, Nat.lt_irrefl, if_false, if_neg]
        simpa using ih bs
      · simp [h, Nat.lt_asymm h]

theorem lexLe_trans : ∀ {l₁ l₂ l₃ : List Char},
    lexLe l₁ l₂ = true → lexLe l₂ l₃ = true → lexLe l₁ l₃ = true
  | [], _, _, _, _ => rfl
  | _ :: _, [], _, h₁, _ => by simp [lexLe] at h₁
  | _ :: _, _ :: _, [], _, h₂ => by simp [lexLe] at h₂
  | a :: as, b :: bs, c :: cs, h₁, h₂ => by
    simp only [lexLe] at h₁ h₂ ⊢
    rcases Nat.lt_trichotomy a.toNat b.toNat with hab | hab | hab <;>
      rcases Nat.lt_trichotomy b.toNat c.toNat with hbc | hbc | hbc
    · simp [show a.toNat < c.toNat by omega]
    · simp [show a.toNat < c.toNat by omega]
    · rw [if_neg (by omega), if_pos hbc] at h₂
      exact absurd h₂ (by simp)
    · simp [show a.toNat < c.toNat by omega]
    · rw [if_neg (by omega), if_neg (by omega)] at h₁
      rw [if_neg (by omega), if_neg (by omega)] at h₂
      rw [if_neg (by omega), if_neg (by omega)]
      exact lexLe_trans h₁ h₂
    · rw [if_neg (by omega), if_pos hbc] at h₂
      exact absurd h₂ (by simp)
    · rw [if_neg (by omega), if_pos hab] at h₁
      exact absurd h₁ (by simp)
    · rw [if_neg (by omega), if_pos hab] at h₁
      exact absurd h₁ (by simp)
    · rw [if_neg (by omega), if_pos hab] at h₁
      exact absurd h₁ (by simp)

theorem lexLe_antisymm : ∀ {l₁ l₂ : List Char},
    lexLe l₁ l₂ = true → lexLe l₂ l₁ = true → l₁ = l₂
  | [], [], _, _ => rfl
  | [], _ :: _, _, h₂ => by simp [lexLe] at h₂
  | _ :: _, [], h₁, _ => by simp [lexLe] at h₁
  | a :: as, b :: bs, h₁, h₂ => by
    simp only [lexLe] at h₁ h₂
    rcases Nat.lt_trichotomy a.toNat b.toNat with hab | hab | hab
    · rw [if_neg (by omega), if_pos hab] at h₂
      exact absurd h₂ (by simp)
    · rw [if_neg (by omega), if_neg (by omega)] at h₁
      rw [if_neg (by omega), if_neg (by omega)] at h₂
      rw [charToNat_inj hab, lexLe_antisymm h₁ h₂]
    · rw [if_neg (by omega), if_pos hab] at h₁
      exact absurd h₁ (by simp)

theorem stringDataEq : ∀ {s t : String}, s.data = t.data → s = t
  | ⟨_⟩, ⟨_⟩, h => congrArg String.mk h

instance : IsTotal String nameLe := ⟨fun a b => lexLe_total a.data b.data⟩
instance : IsTrans String nameLe := ⟨fun _ _ _ => lexLe_trans⟩
instance : IsAntisymm String nameLe :=
  ⟨fun _ _ h₁ h₂ => stringDataEq (lexLe_antisymm h₁ h₂)⟩

/-! ## Data model: files and directories -/

/-- Byte strings (file contents); a byte is a `Nat`. -/
abbrev Bytes := List Nat

instance exceptDecEq {ε α : Type} [DecidableEq ε] [DecidableEq α] :
    DecidableEq (Except ε α) := fun a b =>
  match a, b with
  | .error e, .error e' =>
    if h : e = e' then .isTrue (by rw [h]) else
      .isFalse (fun hc => by cases hc; exact h rfl)
  | .error _, .ok _ => .isFalse (fun hc => by cases hc)
  | .ok _, .error _ => .isFalse (fun hc => by cases hc)
  | .ok x, .ok x' =>
    if h : x = x' then .isTrue (by rw [h]) else
      .isFalse (fun hc => by cases hc; exact h rfl)

/-- A file in the documents directory: filename, raw bytes, and the result
of PDF parsing (`.error` = `PdfReader` raises; `.ok pages` = the ordered
list of `page.extract_text()` results, one per physical page).  The three
`Option` fields model the `/Title`, `/Author`, `/CreationDate` entries of
`pdf_reader.metadata`. -/
structure PdfFile where
  name : String
  bytes : Bytes
  parsed : Except Unit (List String)
  titleOpt : Option String
  authorOpt : Option String
  creationOpt : Option String
deriving DecidableEq

/-- A directory listing, in filesystem-enumeration order. -/
abbrev Dir := List PdfFile

/-- `filename.lower().endswith('.pdf')`. -/
def isPdfName (n : String) : Bool :=
  List.isSuffixOf ".pdf".data (n.data.map lowerChar)

/-- The `.pdf` entries of a directory, in enumeration order
(`[f for f in os.listdir(dir) if f.lower().endswith('.pdf')]`). -/
def pdfFilesOf (dir : Dir) : List PdfFile :=
  dir.filter (fun f => isPdfName f.name)

/-- The bytes of the file called `n` (the model of `open(path, "rb")` plus
reading the whole file; nonexistent names yield `[]`, a case that cannot
arise for names coming out of the same listing). -/
def contentOf (dir : Dir) (n : String) : Bytes :=
  match dir.find? (fun f => f.name = n) with
  | some f => f.bytes
  | none => []

/-- `sorted([f for f in os.listdir(dir) if f.lower().endswith('.pdf')])`. -/
def pdfNamesSorted (dir : Dir) : List String :=
  ((dir.map PdfFile.name).filter isPdfName).insertionSort nameLe

/-- `compute_documents_hash` (v5 lines 381-388, v6 lines 944-956): SHA-256
over the concatenation of the byte contents of the `.pdf` files taken in
sorted-filename order.  Under the injective model of SHA-256 the digest is
that concatenation itself.  Note that only the bytes are hashed: no
filenames, lengths, or separators enter the digest. -/
def compute_documents_hash (dir : Dir) : Bytes :=
  (pdfNamesSorted dir).flatMap (contentOf dir)

/-! ## Fingerprint lemmas -/

/-- Members of a list with `Nodup` names that share a name are equal. -/
theorem eq_of_mem_of_name_eq {dir : Dir}
    (hnd : (dir.map PdfFile.name).Nodup) {f g : PdfFile}
    (hf : f ∈ dir) (hg : g ∈ dir) (h : f.name = g.name) : f = g :=
  List.inj_on_of_nodup_map hnd hf hg h

/-- With unique filenames, `contentOf` depends only on the set of files,
not on enumeration order. -/
theorem contentOf_perm {dir₁ dir₂ : Dir} (hperm : dir₁.Perm dir₂)
    (hnd : (dir₁.map PdfFile.name).Nodup) (n : String) :
    contentOf dir₁ n = contentOf dir₂ n := by
  unfold contentOf
  cases h₁ : dir₁.find? (fun f => f.name = n) with
  | none =>
    cases h₂ : dir₂.find? (fun f => f.name = n) with
    | none => rfl
    | some g =>
      have hg : g ∈ dir₂ := List.mem_of_find?_eq_some h₂
      have hgn : g.name = n := by
        have := List.find?_some h₂
        simpa using this
      have : ∀ f ∈ dir₁, ¬ (decide (f.name = n) = true) :=
        List.find?_eq_none.mp h₁
      exact absurd (by simpa using hgn) (this g (hperm.symm.subset hg))
  | some f =>
    have hf : f ∈ dir₁ := List.mem_of_find?_eq_some h₁
    have hfn : f.name = n := by
      have := List.find?_some h₁
      simpa using this
    cases h₂ : dir₂.find? (fun g => g.name = n) with
    | none =>
      have : ∀ g ∈ dir₂, ¬ (decide (g.name = n) = true) :=
        List.find?_eq_none.mp h₂
      exact absurd (by simpa using hfn) (this f (hperm.subset hf))
    | some g =>
      have hg : g ∈ dir₁ := hperm.symm.subset (List.mem_of_find?_eq_some h₂)
      have hgn : g.name = n := by
        have := List.find?_some h₂
        simpa using this
      show f.bytes = g.bytes
      exact congrArg PdfFile.bytes
        (eq_of_mem_of_name_eq hnd hf hg (hfn.trans hgn.symm))

/-- The sorted `.pdf` name list depends only on the set of files. -/
theorem pdfNamesSorted_perm {dir₁ dir₂ : Dir} (hperm : dir₁.Perm dir₂) :
    pdfNamesSorted dir₁ = pdfNamesSorted dir₂ := by
  unfold pdfNamesSorted
  have hp : ((dir₁.map PdfFile.name).filter isPdfName).Perm
      ((dir₂.map PdfFile.name).filter isPdfName) :=
    (hperm.map PdfFile.name).filter isPdfName
  exact List.eq_of_perm_of_sorted
    (((List.perm_insertionSort _ _).trans hp).trans
      (List.perm_insertionSort _ _).symm)
    (List.sorted_insertionSort _ _) (List.sorted_insertionSort _ _)

/-! ## Text extraction (v6 `EnhancedDocumentProcessor.extract_text_with_metadata`) -/

/-- One entry of `pages_data` (v6 lines 720-732). -/
structure PageData where
  text : String
  page : Nat
  filename : String
  title : String
  author : String
  creation_date : String
  file_size : Nat
  char_count : Nat
deriving DecidableEq

/-- The `for page_num, page in enumerate(pdf_reader.pages)` loop of
`extract_text_with_metadata`: pages whose stripped text is empty are
dropped, the kept ones record `page_num + 1` for the ORIGINAL position. -/
def extractPagesAux (f : PdfFile) : Nat → List String → List PageData
  | _, [] => []
  | i, text :: rest =>
    let tail := extractPagesAux f (i + 1) rest
    if (pyStrip text).data.isEmpty then tail
    else
      { text := text
        page := i + 1
        filename := f.name
        title := f.titleOpt.getD f.name
        author := f.authorOpt.getD ""
        creation_date := f.creationOpt.getD ""
        file_size := strLen text
        char_count := strLen text } :: tail

/-- `extract_text_with_metadata` (v6 lines 710-734).  `PdfReader` raising
is the `.error` case of `parsed`. -/
def extract_text_with_metadata (f : PdfFile) : Except Unit (List PageData) :=
  f.parsed.map (extractPagesAux f 0)

/-- The original 1-based positions of a page list, starting after `i`
earlier pages: the mathematical yardstick the extraction theorems compare
against. -/
def numberedFrom (i : Nat) : List String → List (Nat × String)
  | [] => []
  | t :: r => (i + 1, t) :: numberedFrom (i + 1) r

/-! ## Extraction and chunking shared by v5 and the upload path -/

/-- `extract_text_from_pdf` (v5 lines 371-373, v6 lines 1133-1136):
`[page.extract_text() for page in pdf_reader.pages if page.extract_text()]`.
The guard is Python truthiness of the raw text (nonempty, NOT stripped). -/
def extract_text_from_pdf (f : PdfFile) : Except Unit (List String) :=
  f.parsed.map (fun pages => pages.filter (fun t => !t.data.isEmpty))

/-! ## Adaptive chunking (v6 `smart_chunking`, lines 736-773) -/

/-- The `(chunk_size, chunk_overlap)` choice of the `'adaptive'` branch of
`smart_chunking` (v6 lines 738-747). -/
def adaptiveChunkParams (n : Nat) : Nat × Nat :=
  if n < 500 then (300, 50)
  else if n < 2000 then (600, 100)
  else (1200, 200)

/-- One chunk record produced by `smart_chunking`: text plus
`metadata.copy()` updated with `chunk_id`, `chunk_size`, `total_chunks`. -/
structure ChunkDoc where
  text : String
  meta : PageData
  chunk_id : Nat
  chunk_size : Nat
  total_chunks : Nat
deriving DecidableEq

/-- The `for i, chunk in enumerate(chunks)` loop of `smart_chunking`
(v6 lines 760-771). -/
def mkChunkDocsAux (metadata : PageData) (total : Nat) :
    Nat → List String → List ChunkDoc
  | _, [] => []
  | i, c :: rest =>
    ⟨c, metadata, i, strLen c, total⟩ :: mkChunkDocsAux metadata total (i + 1) rest

/-- Chunk records for a chunk list, as built by `smart_chunking`. -/
def mkChunkDocs (chunks : List String) (metadata : PageData) : List ChunkDoc :=
  mkChunkDocsAux metadata chunks.length 0 chunks

/-- `smart_chunking` (v6 lines 736-773).  The external
`RecursiveCharacterTextSplitter` is the parameter `splitter`, called with
the selected chunk size and overlap. -/
def smart_chunking (splitter : Nat → Nat → String → List String)
    (text : String) (metadata : PageData) (chunk_strategy : String) :
    List ChunkDoc :=
  let p :=
    if chunk_strategy = "adaptive" then adaptiveChunkParams (strLen text)
    else (1000, 200)
  mkChunkDocs (splitter p.1 p.2 text) metadata

/-! ## Hierarchical index builder
(v6 `create_hierarchical_vectorstore_with_progress`, lines 797-894) -/

/-- `doc_metadata` entry (v6 lines 825-830; the constant
`'type': 'document_summary'` field is omitted). -/
structure DocMeta where
  filename : String
  page_count : Nat
  total_chars : Nat
deriving DecidableEq

/-- The document-level vector store, identified with the
(summary text, metadata) pairs it is built from. -/
abbrev DocIndex := List (String × DocMeta)

/-- The chunk-level vector store, identified with the chunk records it is
built from (FAISS batching for >1000 chunks merges batches back into the
same sequence, so the model is batching-invariant). -/
abbrev ChunkIndex := List ChunkDoc

/-- The body of the per-file loop of
`create_hierarchical_vectorstore_with_progress` (v6 lines 807-845):
`none` = the `continue` paths (extraction raised, `pages_data` empty, or
stripped full text shorter than 50); otherwise the file's summary,
document metadata, and the chunks of its pages of stripped length ≥ 100,
keeping only chunks of stripped length > 50. -/
def fileContribution (summarize : String → String → String)
    (splitter : Nat → Nat → String → List String) (f : PdfFile) :
    Option (String × DocMeta × List ChunkDoc) :=
  match extract_text_with_metadata f with
  | .error _ => none
  | .ok pagesData =>
    if pagesData.isEmpty then none
    else
      let fullText := joinSep " " (pagesData.map PageData.text)
      if strLen (pyStrip fullText) < 50 then none
      else
        some (summarize fullText f.name,
          ⟨f.name, pagesData.length, strLen fullText⟩,
          pagesData.flatMap (fun pd =>
            if strLen (pyStrip pd.text) < 100 then []
            else (smart_chunking splitter pd.text pd "adaptive").filter
              (fun cd => 50 < strLen (pyStrip cd.text))))

/-- `create_hierarchical_vectorstore_with_progress` (v6 lines 797-894):
fold the per-file contributions in order, then fail with the explicit
`"No valid documents could be processed"` signal when either accumulator
is empty (v6 lines 847-848). -/
def create_hierarchical_vectorstore (summarize : String → String → String)
    (splitter : Nat → Nat → String → List String) (files : List PdfFile) :
    Except String (DocIndex × ChunkIndex) :=
  let contribs := files.filterMap (fileContribution summarize splitter)
  let docIndex : DocIndex := contribs.map (fun c => (c.1, c.2.1))
  let allChunks : ChunkIndex := contribs.flatMap (fun c => c.2.2)
  if docIndex.isEmpty ∨ allChunks.isEmpty then
    .error "No valid documents could be processed"
  else .ok (docIndex, allChunks)

/-! ### v5 flat pipeline (`streamlit_app.py`) -/

/-- Chunk metadata of the v5/upload pipeline:
`{"source": filename, "page": page_number + 1}`. -/
structure MetaV5 where
  source : String
  page : Nat
deriving DecidableEq

/-- The `for page_number, page_text in enumerate(pages_text)` loop shared
by v5 `process_documents` (lines 418-424) and `process_uploaded_pdf`
(lines 1160-1164): every chunk of page `i` (0-based in the FILTERED page
list) is paired with metadata `page = i + 1`.  The external
`CharacterTextSplitter` behind `chunk_text` is the parameter. -/
def chunkEntriesAux (filename : String) (chunk_text : String → List String) :
    Nat → List String → List (String × MetaV5)
  | _, [] => []
  | i, t :: r =>
    ((chunk_text t).map (fun c => (c, ⟨filename, i + 1⟩))) ++
      chunkEntriesAux filename chunk_text (i + 1) r

/-- The docs/metadatas accumulation loop of v5 `process_documents`
(lines 416-424).  A file whose extraction raises aborts the whole loop
(there is no `try` in v5). -/
def buildDocsV5 (chunk_text : String → List String) :
    List PdfFile → Except Unit (List (String × MetaV5))
  | [] => .ok []
  | f :: fs => do
    let pagesText ← extract_text_from_pdf f
    let rest ← buildDocsV5 chunk_text fs
    .ok (chunkEntriesAux f.name chunk_text 0 pagesText ++ rest)

/-- Persisted cache of v5, keeping the program's two DISTINCT vector-store
artifacts apart: `vectorstoreIndexFile` is the existence of
`vectorstore/vectorstore.index` — the file the cache probe at line 407/410
checks — while `store` holds the FAISS artifacts (`index.faiss` /
`index.pkl`) that `save_vectorstore`'s `save_local` writes and
`load_vectorstore`'s `load_local` reads; `hash` is `documents_hash.txt`.
`none` = file absent.  The program itself never creates
`vectorstore.index`, so within its own runs the probe never succeeds. -/
structure StateV5 where
  vectorstoreIndexFile : Option Unit
  store : Option (List (String × MetaV5))
  hash : Option Bytes
deriving DecidableEq

/-- Outcome of one v5 `process_documents` call: the returned value
(`.error` = an uncaught exception), the cache directory afterwards, and
whether the index builder (the docs loop + `create_vectorstore`) ran. -/
structure ResultV5 where
  result : Except Unit (List (String × MetaV5))
  state : StateV5
  builderInvoked : Bool
deriving DecidableEq

/-- The rebuild path of v5 `process_documents` (lines 416-430): run the
loop, save the store (`save_local`, writing `index.faiss`/`index.pkl` —
NOT the probed `vectorstore.index`, which is left untouched), then write
the hash.  `create_vectorstore` is the external FAISS constructor,
identified with the (text, metadata) list. -/
def rebuildV5 (chunk_text : String → List String) (dir : Dir)
    (s : StateV5) (current : Bytes) : ResultV5 :=
  match buildDocsV5 chunk_text (pdfFilesOf dir) with
  | .error e => ⟨.error e, s, true⟩
  | .ok docs =>
    ⟨.ok docs, ⟨s.vectorstoreIndexFile, some docs, some current⟩, true⟩

/-- The cache probe of v5 `process_documents` (lines 407-414): it checks
`os.path.exists` of `vectorstore/vectorstore.index` and of
`documents_hash.txt`, then compares hashes.  On a hit it calls
`load_vectorstore`, whose `load_local` reads the FAISS artifacts — and
raises if they are absent (`.error`).  Because `save_local` never creates
`vectorstore.index`, this probe can only succeed on a file placed there
from outside the program. -/
def tryLoadV5 (s : StateV5) (current : Bytes) :
    Option (Except Unit (List (String × MetaV5))) :=
  match s.vectorstoreIndexFile, s.hash with
  | some _, some h =>
    if h = current then
      some (match s.store with
        | some vs => Except.ok vs
        | none => Except.error ())
    else none
  | _, _ => none

/-- `process_documents` (v5 lines 405-430): attempt the (unreachable in
practice) probe-and-load, otherwise rebuild and write-through. -/
def process_documents (chunk_text : String → List String) (dir : Dir)
    (s : StateV5) : ResultV5 :=
  match tryLoadV5 s (compute_documents_hash dir) with
  | some loaded => ⟨loaded, s, false⟩
  | none => rebuildV5 chunk_text dir s (compute_documents_hash dir)

/-- `process_uploaded_pdf` (v6 lines 1151-1170): extract (dropping falsy
pages), chunk each remaining page with `page_number+1` metadata taken from
the FILTERED enumeration, and report success iff any chunk was made. -/
def process_uploaded_pdf (chunk_text : String → List String) (f : PdfFile) :
    Except Unit (Option (List (String × MetaV5)) × String) := do
  let pagesText ← extract_text_from_pdf f
  let docs := chunkEntriesAux f.name chunk_text 0 pagesText
  if docs.isEmpty then
    return (none, "Could not extract any text from the uploaded PDF.")
  else
    return (some docs,
      "Successfully processed " ++ f.name ++ " (" ++
        toString docs.length ++ " chunks created)")

/-! ### v6 hash-gated cache (`process_documents_with_caching`) -/

/-- Which external call, if any, raises during the v6 rebuild `try` block:
the FAISS/embedding build, `doc_vectorstore.save_local`, or
`chunk_vectorstore.save_local`. -/
inductive FailPoint where
  | none
  | build
  | saveDoc
  | saveChunk
deriving DecidableEq

/-- Persisted cache of v6: the two saved vector stores and
`documents_hash.txt`; `none` = path absent. -/
structure StateV6 where
  docStore : Option DocIndex
  chunkStore : Option ChunkIndex
  hashFile : Option Bytes
deriving DecidableEq

/-- Outcome of one `process_documents_with_caching` call: the returned
pair (`none` = the `(None, None)` error returns), the cache directory
afterwards, whether the index builder was invoked, and whether the result
was loaded from the persisted cache. -/
structure ResultV6 where
  result : Option (DocIndex × ChunkIndex)
  state : StateV6
  builderInvoked : Bool
  loadedFromCache : Bool
deriving DecidableEq

/-- The cache probe of `process_documents_with_caching` (v6 lines
973-997): all three artifacts present and saved hash equal to the current
one.  (`FAISS.load_local` is modelled as succeeding; a load failure only
widens the rebuild path.) -/
def tryLoadCache (s : StateV6) (current : Bytes) :
    Option (DocIndex × ChunkIndex) :=
  match s.docStore, s.chunkStore, s.hashFile with
  | some d, some c, some h => if h = current then some (d, c) else none
  | _, _, _ => none

/-- The rebuild path of `process_documents_with_caching` (v6 lines
999-1034): refuse when no `.pdf` file exists; otherwise build, save the
document store, save the chunk store, and only then write the hash file.
An exception at any step returns `(None, None)` and leaves later steps
undone. -/
def rebuildV6 (summarize : String → String → String)
    (splitter : Nat → Nat → String → List String) (fail : FailPoint)
    (dir : Dir) (s : StateV6) (current : Bytes) : ResultV6 :=
  if (pdfFilesOf dir).isEmpty then ⟨none, s, false, false⟩
  else if fail = FailPoint.build then ⟨none, s, true, false⟩
  else
    match create_hierarchical_vectorstore summarize splitter (pdfFilesOf dir) with
    | .error _ => ⟨none, s, true, false⟩
    | .ok (d, c) =>
      if fail = FailPoint.saveDoc then ⟨none, s, true, false⟩
      else if fail = FailPoint.saveChunk then
        ⟨none, ⟨some d, s.chunkStore, s.hashFile⟩, true, false⟩
      else ⟨some (d, c), ⟨some d, some c, some current⟩, true, false⟩

/-- `process_documents_with_caching` (v6 lines 959-1034).  The
`compute_documents_hash` failure branch cannot occur in the model (the
directory is always readable). -/
def process_documents_with_caching (summarize : String → String → String)
    (splitter : Nat → Nat → String → List String) (fail : FailPoint)
    (dir : Dir) (s : StateV6) : ResultV6 :=
  match tryLoadCache s (compute_documents_hash dir) with
  | some dc => ⟨some dc, s, false, true⟩
  | none =>
    rebuildV6 summarize splitter fail dir s (compute_documents_hash dir)

/-! ## Retrieval composer (v6 `AdvancedRetriever`, lines 900-938) -/

/-- A query-time retriever: either a plain search over the chunk index, or
one wrapped by a relevance-compression stage whose per-query LLM call can
raise. -/
inductive RetrieverM (Doc : Type) where
  | base (search : String → List Doc)
  | compressed (compressor : String → List Doc → Except Unit (List Doc))
      (b : RetrieverM Doc)

/-- Query-time semantics: a compression stage first runs its base
retriever, then post-filters; an error anywhere propagates (no handler
exists at query time, in the repository or in the wrapped library). -/
def retrieveDocs {Doc : Type} : RetrieverM Doc → String → Except Unit (List Doc)
  | .base f, q => .ok (f q)
  | .compressed comp b, q => (retrieveDocs b q).bind (comp q)

/-- `create_ensemble_retriever` (v6 lines 907-926): the weighted
(0.6/0.4) fusion of the similarity and MMR searches over the chunk index;
the searches and the `EnsembleRetriever` fusion are external parameters. -/
def create_ensemble_retriever {Doc : Type}
    (simSearch mmrSearch : String → List Doc)
    (fuse : List Doc → List Doc → List Doc) : RetrieverM Doc :=
  .base (fun q => fuse (simSearch q) (mmrSearch q))

/-- `create_compressed_retriever` (v6 lines 928-938): `try` to CONSTRUCT
the compression stage (`ChatOpenAI` + `LLMChainExtractor.from_llm`); on a
construction-time exception return the base retriever unchanged.  Nothing
here guards query-time compressor errors. -/
def create_compressed_retriever {Doc : Type}
    (mkCompressor : Except Unit (String → List Doc → Except Unit (List Doc)))
    (base_retriever : RetrieverM Doc) : RetrieverM Doc :=
  match mkCompressor with
  | .ok comp => .compressed comp base_retriever
  | .error _ => base_retriever

/-! ## Concrete fixtures for witnesses and counterexamples -/

/-- A trivial external splitter: one chunk holding the whole text. -/
def idSplitter : Nat → Nat → String → List String := fun _ _ t => [t]

/-- A trivial external summariser. -/
def idSummarize : String → String → String := fun t _ => t

/-- A 120-character page text. -/
def page120 : String := ⟨List.replicate 120 'a'⟩

/-- A 60-character page text (below the per-page chunking floor of 100). -/
def page60 : String := ⟨List.replicate 60 'b'⟩

def fileA : PdfFile := ⟨"a.pdf", [1], .ok [page120], none, none, none⟩

/-- `fileA` with one byte of content changed. -/
def fileA' : PdfFile := ⟨"a.pdf", [2], .ok [page120], none, none, none⟩

def fileC : PdfFile := ⟨"c.pdf", [3, 4], .ok [page120], none, none, none⟩

/-- A zero-byte file named `b.pdf`. -/
def fileB0 : PdfFile := ⟨"b.pdf", [], .ok [], none, none, none⟩

/-- A file whose PDF parsing raises. -/
def fileBad : PdfFile := ⟨"bad.pdf", [9], .error (), none, none, none⟩

/-- Two pages: a chunkable one and a 60-character one. -/
def fileTwoPages : PdfFile := ⟨"d.pdf", [5], .ok [page120, page60], none, none, none⟩

/-- An upload whose first page yields no text. -/
def fileBlankFirst : PdfFile := ⟨"u.pdf", [6], .ok ["", page120], none, none, none⟩

def emptyStateV5 : StateV5 := ⟨none, none, none⟩

def emptyStateV6 : StateV6 := ⟨none, none, none⟩

/-! ## Generic `contentOf` and `pdfNamesSorted` lemmas -/

theorem contentOf_cons_pos (p : PdfFile) (dir : Dir) {m : String}
    (h : p.name = m) : contentOf (p :: dir) m = p.bytes := by
  unfold contentOf
  rw [List.find?_cons_of_pos _ (by simp [h])]

theorem contentOf_cons_ne (p : PdfFile) (dir : Dir) {m : String}
    (h : p.name ≠ m) : contentOf (p :: dir) m = contentOf dir m := by
  unfold contentOf
  rw [List.find?_cons_of_neg _ (by simp [h])]

/-- Replacing the file at one position by one with the same name does not
change `contentOf` at other names. -/
theorem contentOf_mid_ne : ∀ (pre post : List PdfFile) (f f' : PdfFile),
    f'.name = f.name → ∀ m, m ≠ f.name →
    contentOf (pre ++ f :: post) m = contentOf (pre ++ f' :: post) m
  | [], post, f, f', hname, m, hm => by
    rw [List.nil_append, List.nil_append, contentOf_cons_ne _ _ hm.symm,
      contentOf_cons_ne _ _ (by rw [hname]; exact hm.symm)]
  | p :: pre', post, f, f', hname, m, hm => by
    by_cases hp : p.name = m
    · rw [List.cons_append, List.cons_append, contentOf_cons_pos _ _ hp,
        contentOf_cons_pos _ _ hp]
    · rw [List.cons_append, List.cons_append, contentOf_cons_ne _ _ hp,
        contentOf_cons_ne _ _ hp]
      exact contentOf_mid_ne pre' post f f' hname m hm

/-- `contentOf` at the name of a file no earlier file shares. -/
theorem contentOf_mid_self : ∀ (pre post : List PdfFile) (f : PdfFile),
    (∀ p ∈ pre, p.name ≠ f.name) →
    contentOf (pre ++ f :: post) f.name = f.bytes
  | [], post, f, _ => contentOf_cons_pos f post rfl
  | p :: pre', post, f, h => by
    rw [List.cons_append, contentOf_cons_ne p _ (h p (by simp))]
    exact contentOf_mid_self pre' post f (fun q hq => h q (by simp [hq]))

/-- Appending a file with a fresh name does not change `contentOf` at
other names. -/
theorem contentOf_append_single_ne : ∀ (dir : Dir) (g : PdfFile) (m : String),
    g.name ≠ m → contentOf (dir ++ [g]) m = contentOf dir m
  | [], g, m, h => by
    rw [List.nil_append, contentOf_cons_ne _ _ h]
  | p :: dir', g, m, h => by
    by_cases hp : p.name = m
    · rw [List.cons_append, contentOf_cons_pos _ _ hp, contentOf_cons_pos _ _ hp]
    · rw [List.cons_append, contentOf_cons_ne _ _ hp, contentOf_cons_ne _ _ hp]
      exact contentOf_append_single_ne dir' g m h

/-- The sorted `.pdf` name list only depends on the name listing. -/
theorem pdfNamesSorted_congr {dir₁ dir₂ : Dir}
    (h : dir₁.map PdfFile.name = dir₂.map PdfFile.name) :
    pdfNamesSorted dir₁ = pdfNamesSorted dir₂ := by
  unfold pdfNamesSorted
  rw [h]

theorem mem_pdfNamesSorted {dir : Dir} {n : String} :
    n ∈ pdfNamesSorted dir ↔ n ∈ (dir.map PdfFile.name).filter isPdfName :=
  (List.perm_insertionSort nameLe _).mem_iff

theorem nodup_pdfNamesSorted {dir : Dir}
    (hnd : (dir.map PdfFile.name).Nodup) : (pdfNamesSorted dir).Nodup :=
  (List.perm_insertionSort nameLe _).symm.nodup (hnd.filter _)

/-- Elementwise congruence for `flatMap`. -/
theorem flatMap_congr_mem {α β : Type} {l : List α} {f g : α → List β}
    (h : ∀ a ∈ l, f a = g a) : l.flatMap f = l.flatMap g := by
  induction l with
  | nil => rfl
  | cons a t ih =>
    simp only [List.flatMap_cons]
    rw [h a (by simp), ih (fun b hb => h b (by simp [hb]))]

theorem length_flatMap_eq_sum {α : Type} (f : α → Bytes) (l : List α) :
    (l.flatMap f).length = (l.map fun a => (f a).length).sum := by
  induction l with
  | nil => rfl
  | cons a t ih => simp [List.flatMap_cons, ih]

/-- The fingerprint depends only on the set of files, not on enumeration
order (filenames assumed unique, as in a real directory). -/
theorem compute_documents_hash_perm {dir₁ dir₂ : Dir} (hperm : dir₁.Perm dir₂)
    (hnd : (dir₁.map PdfFile.name).Nodup) :
    compute_documents_hash dir₁ = compute_documents_hash dir₂ := by
  unfold compute_documents_hash
  rw [pdfNamesSorted_perm hperm, funext (contentOf_perm hperm hnd)]

/-- Changing the byte content of one `.pdf` file (same filenames
everywhere else, unique names) changes the fingerprint. -/
theorem hash_changes_on_content_change (pre post : List PdfFile)
    (f f' : PdfFile) (hname : f'.name = f.name) (hbytes : f.bytes ≠ f'.bytes)
    (hpdf : isPdfName f.name = true)
    (hnd : ((pre ++ f :: post).map PdfFile.name).Nodup) :
    compute_documents_hash (pre ++ f :: post) ≠
      compute_documents_hash (pre ++ f' :: post) := by
  intro heq
  have hnames : (pre ++ f :: post).map PdfFile.name =
      (pre ++ f' :: post).map PdfFile.name := by simp [hname]
  have hmemF : f.name ∈ pdfNamesSorted (pre ++ f :: post) := by
    rw [mem_pdfNamesSorted, List.mem_filter]
    exact ⟨by simp, hpdf⟩
  have hndS : (pdfNamesSorted (pre ++ f :: post)).Nodup :=
    nodup_pdfNamesSorted hnd
  obtain ⟨L₁, L₂, hsplit⟩ := List.append_of_mem hmemF
  have hninL : f.name ∉ L₁ ∧ f.name ∉ L₂ := by
    rw [hsplit] at hndS
    obtain ⟨-, h2, hdisj⟩ := List.nodup_append.mp hndS
    exact ⟨fun hmem => hdisj hmem (by simp), (List.nodup_cons.mp h2).1⟩
  have hpreName : ∀ p ∈ pre, p.name ≠ f.name := by
    intro p hp hcontra
    have hnd' : (pre.map PdfFile.name ++
        f.name :: post.map PdfFile.name).Nodup := by simpa using hnd
    obtain ⟨-, -, hdisj⟩ := List.nodup_append.mp hnd'
    exact hdisj (List.mem_map_of_mem _ hp) (by simp [hcontra])
  have hc₁ : ∀ m ∈ L₁, contentOf (pre ++ f :: post) m =
      contentOf (pre ++ f' :: post) m := by
    intro m hm
    exact contentOf_mid_ne pre post f f' hname m
      (fun hc => hninL.1 (hc ▸ hm))
  have hc₂ : ∀ m ∈ L₂, contentOf (pre ++ f :: post) m =
      contentOf (pre ++ f' :: post) m := by
    intro m hm
    exact contentOf_mid_ne pre post f f' hname m
      (fun hc => hninL.2 (hc ▸ hm))
  have hself : contentOf (pre ++ f :: post) f.name = f.bytes :=
    contentOf_mid_self pre post f hpreName
  have hself' : contentOf (pre ++ f' :: post) f.name = f'.bytes := by
    have := contentOf_mid_self pre post f'
      (fun p hp => by rw [hname]; exact hpreName p hp)
    rw [hname] at this
    exact this
  unfold compute_documents_hash at heq
  rw [← pdfNamesSorted_congr hnames, hsplit] at heq
  rw [List.flatMap_append, List.flatMap_append, List.flatMap_cons,
    List.flatMap_cons, flatMap_congr_mem hc₁, flatMap_congr_mem hc₂,
    hself, hself'] at heq
  have h1 := List.append_cancel_left heq
  have h2 := List.append_cancel_right h1
  exact hbytes h2

/-- Adding (equivalently, removing) a `.pdf` file with NON-EMPTY byte
content and a fresh name changes the fingerprint. -/
theorem hash_changes_on_addition (dir : Dir) (g : PdfFile)
    (hpdf : isPdfName g.name = true) (hbytes : g.bytes ≠ [])
    (hfresh : ∀ p ∈ dir, p.name ≠ g.name) :
    compute_documents_hash (dir ++ [g]) ≠ compute_documents_hash dir := by
  intro heq
  have hlen := congrArg List.length heq
  unfold compute_documents_hash at hlen
  rw [length_flatMap_eq_sum, length_flatMap_eq_sum] at hlen
  have hpermS : (pdfNamesSorted (dir ++ [g])).Perm
      (((dir.map PdfFile.name).filter isPdfName) ++ [g.name]) := by
    refine (List.perm_insertionSort nameLe _).trans ?_
    simp [hpdf]
  have hpermS₁ : (pdfNamesSorted dir).Perm
      ((dir.map PdfFile.name).filter isPdfName) :=
    List.perm_insertionSort nameLe _
  rw [(hpermS.map _).sum_eq, (hpermS₁.map _).sum_eq] at hlen
  have hcongr : ∀ m ∈ (dir.map PdfFile.name).filter isPdfName,
      (contentOf (dir ++ [g]) m).length = (contentOf dir m).length := by
    intro m hm
    obtain ⟨p, hp, hpm⟩ := List.mem_map.mp (List.mem_of_mem_filter hm)
    rw [contentOf_append_single_ne dir g m (fun hc => hfresh p hp (by rw [hpm, hc]))]
  have hgself : contentOf (dir ++ [g]) g.name = g.bytes := by
    have := contentOf_mid_self dir [] g hfresh
    simpa using this
  rw [List.map_append, List.sum_append,
    List.map_congr_left hcongr] at hlen
  simp only [List.map_cons, List.map_nil, List.sum_cons, List.sum_nil,
    hgself] at hlen
  have : g.bytes.length = 0 := by omega
  exact hbytes (List.eq_nil_of_length_eq_zero this)

/-! ## Claim theorems -/

/-- C2: for every fixed set of (filename, byte-content) PDF pairs,
`compute_documents_hash` returns the same digest on any two runs
regardless of the order in which the filesystem enumerates the files: any
two permuted listings of the same files (filenames unique, as in a real
directory) produce equal digests. -/
theorem fingerprint_enumeration_determinism (dir₁ dir₂ : Dir)
    (hperm : dir₁.Perm dir₂) (hnd : (dir₁.map PdfFile.name).Nodup) :
    compute_documents_hash dir₁ = compute_documents_hash dir₂ :=
  compute_documents_hash_perm hperm hnd

/-- Witness for C2: two enumeration orders of the same two files. -/
theorem fingerprint_enumeration_determinism_witness :
    [fileA, fileC].Perm [fileC, fileA] ∧
    ([fileA, fileC].map PdfFile.name).Nodup ∧
    compute_documents_hash [fileA, fileC] =
      compute_documents_hash [fileC, fileA] :=
  ⟨List.Perm.swap fileC fileA [], by decide,
    fingerprint_enumeration_determinism _ _ (List.Perm.swap fileC fileA [])
      (by decide)⟩

/-- C3 counterexample: adding the zero-byte file `b.pdf` is an addition
of a PDF to the document set, yet the fingerprint is unchanged, because
only file bytes (no names, lengths, or separators) enter the hash. -/
theorem fingerprint_add_zero_byte_pdf_cex :
    isPdfName fileB0.name = true ∧ fileB0 ∉ [fileA] ∧
    compute_documents_hash ([fileA] ++ [fileB0]) =
      compute_documents_hash [fileA] :=
  ⟨by decide, by decide, by decide⟩

/-- C3 (amended): identical document sets (unique filenames) produce the
same fingerprint; a byte-level change to any one `.pdf` file's content
changes it; and adding or removing a `.pdf` file with NON-EMPTY byte
content and a fresh name changes it.  Adding or removing a zero-byte
`.pdf` leaves the fingerprint unchanged (see the counterexample), since
only the files' bytes are hashed. -/
theorem fingerprint_sensitivity :
    (∀ dir₁ dir₂ : Dir, dir₁.Perm dir₂ → (dir₁.map PdfFile.name).Nodup →
      compute_documents_hash dir₁ = compute_documents_hash dir₂) ∧
    (∀ (pre post : List PdfFile) (f f' : PdfFile), f'.name = f.name →
      f.bytes ≠ f'.bytes → isPdfName f.name = true →
      ((pre ++ f :: post).map PdfFile.name).Nodup →
      compute_documents_hash (pre ++ f :: post) ≠
        compute_documents_hash (pre ++ f' :: post)) ∧
    (∀ (dir : Dir) (g : PdfFile), isPdfName g.name = true → g.bytes ≠ [] →
      (∀ p ∈ dir, p.name ≠ g.name) →
      compute_documents_hash (dir ++ [g]) ≠ compute_documents_hash dir) :=
  ⟨fun _ _ hperm hnd => compute_documents_hash_perm hperm hnd,
    hash_changes_on_content_change,
    hash_changes_on_addition⟩

/-- Witness for the amended C3: a one-byte content change and a non-empty
addition, each at concrete directories. -/
theorem fingerprint_sensitivity_witness :
    compute_documents_hash [fileA] ≠ compute_documents_hash [fileA'] ∧
    compute_documents_hash ([fileA] ++ [fileC]) ≠
      compute_documents_hash [fileA] :=
  ⟨fingerprint_sensitivity.2.1 [] [] fileA fileA' rfl (by decide) (by decide)
      (by decide),
    fingerprint_sensitivity.2.2 [fileA] fileC (by decide) (by decide)
      (by decide)⟩

/-- C6: `smart_chunking` with `chunk_strategy='adaptive'` selects chunk
size 300 / overlap 50 for texts of fewer than 500 characters (so 499 uses
the small policy), 600 / 100 for 500 to 1999 characters (both boundaries
inclusive on the medium policy), and 1200 / 200 for 2000 or more; the
emitted chunks are exactly the external splitter's output at those
parameters. -/
theorem smart_chunking_adaptive_boundaries
    (splitter : Nat → Nat → String → List String) (text : String)
    (md : PageData) :
    (strLen text < 500 →
      adaptiveChunkParams (strLen text) = (300, 50) ∧
      smart_chunking splitter text md "adaptive" =
        mkChunkDocs (splitter 300 50 text) md) ∧
    (500 ≤ strLen text → strLen text < 2000 →
      adaptiveChunkParams (strLen text) = (600, 100) ∧
      smart_chunking splitter text md "adaptive" =
        mkChunkDocs (splitter 600 100 text) md) ∧
    (2000 ≤ strLen text →
      adaptiveChunkParams (strLen text) = (1200, 200) ∧
      smart_chunking splitter text md "adaptive" =
        mkChunkDocs (splitter 1200 200 text) md) := by
  refine ⟨fun h => ⟨?_, ?_⟩, fun h1 h2 => ⟨?_, ?_⟩, fun h => ⟨?_, ?_⟩⟩
  · unfold adaptiveChunkParams
    rw [if_pos h]
  · simp only [smart_chunking, adaptiveChunkParams]
    rw [if_pos trivial, if_pos h]
  · unfold adaptiveChunkParams
    rw [if_neg (by omega), if_pos h2]
  · simp only [smart_chunking, adaptiveChunkParams]
    rw [if_pos trivial, if_neg (by omega), if_pos h2]
  · unfold adaptiveChunkParams
    rw [if_neg (by omega), if_neg (by omega)]
  · simp only [smart_chunking, adaptiveChunkParams]
    rw [if_pos trivial, if_neg (by omega), if_neg (by omega)]

/-- Boundary texts for the adaptive chunking policy. -/
def text499 : String := ⟨List.replicate 499 'c'⟩

def text500 : String := ⟨List.replicate 500 'c'⟩

def text1999 : String := ⟨List.replicate 1999 'c'⟩

def text2000 : String := ⟨List.replicate 2000 'c'⟩

/-- A stub page record for chunking witnesses. -/
def mdStub : PageData := ⟨"t", 1, "f.pdf", "t", "", "", 1, 1⟩

set_option maxRecDepth 100000 in
/-- Witness for C6 at the 499/500/1999/2000-character boundaries. -/
theorem smart_chunking_adaptive_boundaries_witness :
    (strLen text499 < 500 ∧
      adaptiveChunkParams (strLen text499) = (300, 50)) ∧
    (500 ≤ strLen text500 ∧ strLen text500 < 2000 ∧
      adaptiveChunkParams (strLen text500) = (600, 100)) ∧
    (500 ≤ strLen text1999 ∧ strLen text1999 < 2000 ∧
      adaptiveChunkParams (strLen text1999) = (600, 100)) ∧
    (2000 ≤ strLen text2000 ∧
      adaptiveChunkParams (strLen text2000) = (1200, 200)) :=
  ⟨⟨by decide,
      ((smart_chunking_adaptive_boundaries idSplitter text499 mdStub).1
        (by decide)).1⟩,
    ⟨by decide, by decide,
      ((smart_chunking_adaptive_boundaries idSplitter text500 mdStub).2.1
        (by decide) (by decide)).1⟩,
    ⟨by decide, by decide,
      ((smart_chunking_adaptive_boundaries idSplitter text1999 mdStub).2.1
        (by decide) (by decide)).1⟩,
    ⟨by decide,
      ((smart_chunking_adaptive_boundaries idSplitter text2000 mdStub).2.2
        (by decide)).1⟩⟩

/-- C8 (amended): when CONSTRUCTING the compression stage raises
(`ChatOpenAI`/`LLMChainExtractor` creation), `create_compressed_retriever`
returns the base retriever unchanged, so every query still yields the
pre-compression fused candidate list.  (A QUERY-TIME compressor error is
NOT caught anywhere and propagates to the caller: see the
counterexample.) -/
theorem compressed_retriever_construction_fallback {Doc : Type}
    (mk : Except Unit (String → List Doc → Except Unit (List Doc)))
    (base_retriever : RetrieverM Doc) (q : String)
    (h : mk = Except.error ()) :
    create_compressed_retriever mk base_retriever = base_retriever ∧
    retrieveDocs (create_compressed_retriever mk base_retriever) q =
      retrieveDocs base_retriever q := by
  subst h
  exact ⟨rfl, rfl⟩

/-- The concrete fused retriever used in the retrieval fixtures. -/
def ensFix : RetrieverM Nat :=
  create_ensemble_retriever (fun _ => [1]) (fun _ => [2]) (fun a b => a ++ b)

/-- Witness for the amended C8: construction failure at a concrete
ensemble retriever. -/
theorem compressed_retriever_construction_fallback_witness :
    retrieveDocs (create_compressed_retriever (Except.error ()) ensFix)
      "q" = retrieveDocs ensFix "q" :=
  (@compressed_retriever_construction_fallback Nat (Except.error ()) ensFix
    "q" rfl).2

/-- C8 counterexample: a compressor that is CONSTRUCTED successfully but
whose per-query LLM call raises makes the composed retriever propagate the
error to the caller, instead of returning the pre-compression fused list
`[1, 2]`. -/
theorem compression_error_propagates_cex :
    retrieveDocs (create_compressed_retriever
        (Except.ok (fun _ _ => Except.error ())) ensFix) "q" =
      Except.error () ∧
    retrieveDocs ensFix "q" = Except.ok [1, 2] :=
  ⟨rfl, rfl⟩

/-! ## Extraction and builder claim theorems -/

/-- The pairs emitted by the `extract_text_with_metadata` loop are exactly
the originally-numbered pages with blank pages dropped. -/
theorem extractPagesAux_pairs (f : PdfFile) : ∀ (i : Nat) (pages : List String),
    (extractPagesAux f i pages).map (fun pd => (pd.page, pd.text)) =
      (numberedFrom i pages).filter (fun pt => !(pyStrip pt.2).data.isEmpty)
  | _, [] => rfl
  | i, t :: rest => by
    simp only [extractPagesAux, numberedFrom, List.filter_cons]
    by_cases h : (pyStrip t).data.isEmpty
    · rw [if_pos h]
      simp only [h, Bool.not_true, if_false]
      exact extractPagesAux_pairs f (i + 1) rest
    · rw [if_neg h]
      simp only [List.map_cons, Bool.not_eq_true] at *
      simp only [h, Bool.not_false, if_true]
      rw [extractPagesAux_pairs f (i + 1) rest]

/-- C9 (amended): `extract_text_with_metadata` returns, in order, the
(page number, text) pairs of exactly the pages whose stripped text is
nonempty, and each pair's page number is the page's ORIGINAL 1-based
position — a kept page keeps its original number even when earlier pages
are dropped.  (The `extract_text_from_pdf` / `process_uploaded_pdf` path
instead renumbers from the filtered sequence: see the counterexample.) -/
theorem extract_text_with_metadata_page_numbers (f : PdfFile)
    (pages : List String) (h : f.parsed = Except.ok pages) :
    ∃ pds, extract_text_with_metadata f = Except.ok pds ∧
      pds.map (fun pd => (pd.page, pd.text)) =
        (numberedFrom 0 pages).filter
          (fun pt => !(pyStrip pt.2).data.isEmpty) :=
  ⟨extractPagesAux f 0 pages,
    by unfold extract_text_with_metadata; rw [h]; rfl,
    extractPagesAux_pairs f 0 pages⟩

/-- Witness for the amended C9: a document whose first page is blank. -/
theorem extract_text_with_metadata_page_numbers_witness :
    fileBlankFirst.parsed = Except.ok ["", page120] ∧
    ∃ pds, extract_text_with_metadata fileBlankFirst = Except.ok pds ∧
      pds.map (fun pd => (pd.page, pd.text)) =
        (numberedFrom 0 ["", page120]).filter
          (fun pt => !(pyStrip pt.2).data.isEmpty) :=
  ⟨rfl, extract_text_with_metadata_page_numbers fileBlankFirst _ rfl⟩

/-- C9 counterexample: `process_uploaded_pdf` labels the text of the
SECOND original page with `page = 1` when the first page extracts no
text: page numbers on this path are positions in the filtered page
sequence, not original positions. -/
theorem process_uploaded_pdf_renumbers_cex :
    fileBlankFirst.parsed = Except.ok ["", page120] ∧
    process_uploaded_pdf (fun t => [t]) fileBlankFirst =
      Except.ok (some [(page120, ⟨"u.pdf", 1⟩)],
        "Successfully processed u.pdf (1 chunks created)") :=
  ⟨rfl, by decide⟩

/-- The per-file skip conditions of the v6 builder: extraction raises, no
page carries nonblank text, or the stripped full text is shorter than 50
characters — the "no usable extractable text" cases. -/
def yieldsNoUsableText (f : PdfFile) : Prop :=
  match extract_text_with_metadata f with
  | .error _ => True
  | .ok pagesData =>
    pagesData = [] ∨
      strLen (pyStrip (joinSep " " (pagesData.map PageData.text))) < 50

/-- A file whose contribution is skipped by the v6 builder. -/
theorem fileContribution_eq_none (summarize : String → String → String)
    (splitter : Nat → Nat → String → List String) (f : PdfFile)
    (h : yieldsNoUsableText f) :
    fileContribution summarize splitter f = none := by
  unfold yieldsNoUsableText at h
  cases hx : extract_text_with_metadata f with
  | error e => simp [fileContribution, hx]
  | ok pagesData =>
    rw [hx] at h
    rcases h with h | h
    · subst h
      simp [fileContribution, hx]
    · simp [fileContribution, hx, h]

/-- C4 (amended): the v6 builder fails with the explicit
`"No valid documents could be processed"` signal whenever the corpus has
zero PDF files or every PDF is skipped for lack of usable text (extraction
raises, all pages blank, or stripped full text under 50 characters);
v5's `process_documents` performs NO such check and silently returns the
(empty) output of the external index constructor: see the
counterexample. -/
theorem builder_fails_no_valid_documents
    (summarize : String → String → String)
    (splitter : Nat → Nat → String → List String) (files : List PdfFile)
    (h : ∀ f ∈ files, yieldsNoUsableText f) :
    create_hierarchical_vectorstore summarize splitter files =
      Except.error "No valid documents could be processed" := by
  have hnone : files.filterMap (fileContribution summarize splitter) = [] := by
    induction files with
    | nil => rfl
    | cons f fs ih =>
      rw [List.filterMap_cons_none
        (fileContribution_eq_none summarize splitter f (h f (by simp)))]
      exact ih (fun g hg => h g (by simp [hg]))
  simp [create_hierarchical_vectorstore, hnone]

/-- Witness for the amended C4: the empty corpus and a corpus whose only
PDF yields no pages. -/
theorem builder_fails_no_valid_documents_witness :
    create_hierarchical_vectorstore idSummarize idSplitter [] =
      Except.error "No valid documents could be processed" ∧
    create_hierarchical_vectorstore idSummarize idSplitter [fileB0] =
      Except.error "No valid documents could be processed" :=
  ⟨builder_fails_no_valid_documents idSummarize idSplitter []
      (fun f hf => absurd hf (List.not_mem_nil f)),
    builder_fails_no_valid_documents idSummarize idSplitter [fileB0]
      (fun f hf => by
        rw [List.mem_singleton] at hf
        subst hf
        exact Or.inl rfl)⟩

/-- C4 counterexample: v5's `process_documents` on a directory with zero
PDF files emits no "no valid documents" signal: it succeeds and returns an
EMPTY index (the external FAISS constructor modelled as accepting its
input). -/
theorem v5_empty_corpus_silent_success_cex :
    (process_documents (fun t => [t]) [] emptyStateV5).result =
      Except.ok [] := by decide

/-- C5 (amended): the v6 hierarchical builder skips a document whose
extraction raises (after logging the `st.warning`) and processes the
remaining documents exactly as if the failing document were absent; in
v5's `process_documents` the same failure propagates and aborts the whole
batch (see the counterexample). -/
theorem builder_skips_failed_extraction
    (summarize : String → String → String)
    (splitter : Nat → Nat → String → List String)
    (pre post : List PdfFile) (bad : PdfFile)
    (h : bad.parsed = Except.error ()) :
    create_hierarchical_vectorstore summarize splitter (pre ++ bad :: post) =
      create_hierarchical_vectorstore summarize splitter (pre ++ post) := by
  have hcontrib : fileContribution summarize splitter bad = none := by
    unfold fileContribution extract_text_with_metadata
    rw [h]
    rfl
  have hfm : (pre ++ bad :: post).filterMap
        (fileContribution summarize splitter) =
      (pre ++ post).filterMap (fileContribution summarize splitter) := by
    rw [List.filterMap_append, List.filterMap_append,
      List.filterMap_cons_none hcontrib]
  simp only [create_hierarchical_vectorstore, hfm]

/-- Witness for the amended C5: a failing document between two good
ones. -/
theorem builder_skips_failed_extraction_witness :
    fileBad.parsed = Except.error () ∧
    create_hierarchical_vectorstore idSummarize idSplitter
        ([fileA] ++ fileBad :: [fileC]) =
      create_hierarchical_vectorstore idSummarize idSplitter
        ([fileA] ++ [fileC]) :=
  ⟨rfl, builder_skips_failed_extraction idSummarize idSplitter [fileA]
    [fileC] fileBad rfl⟩

/-- C5 counterexample: in v5 a single document whose extraction raises
aborts the whole batch — `process_documents` on a good file plus a bad
file propagates the exception and builds nothing. -/
theorem v5_extraction_failure_aborts_batch_cex :
    fileBad.parsed = Except.error () ∧
    (process_documents (fun t => [t]) [fileA, fileBad]
      emptyStateV5).result = Except.error () :=
  ⟨rfl, by decide⟩

/-- Every chunk contributed by one file has stripped length > 50. -/
theorem fileContribution_chunk_floor
    {summarize : String → String → String}
    {splitter : Nat → Nat → String → List String} {f : PdfFile}
    {c : String × DocMeta × List ChunkDoc}
    (h : fileContribution summarize splitter f = some c) :
    ∀ cd ∈ c.2.2, 50 < strLen (pyStrip cd.text) := by
  cases hx : extract_text_with_metadata f with
  | error e =>
    simp only [fileContribution, hx] at h
    exact Option.noConfusion h
  | ok pagesData =>
    simp only [fileContribution, hx] at h
    split at h
    · exact Option.noConfusion h
    · split at h
      · exact Option.noConfusion h
      · injection h with h'
        subst h'
        intro cd hcd
        obtain ⟨pd, hpd, hcd2⟩ := List.mem_flatMap.mp hcd
        by_cases hpl : strLen (pyStrip pd.text) < 100
        · rw [if_pos hpl] at hcd2
          exact absurd hcd2 (List.not_mem_nil cd)
        · rw [if_neg hpl] at hcd2
          have hm := List.mem_filter.mp hcd2
          simpa using hm.2

/-- C7 (amended): every chunk emitted into the chunk-level index has
stripped length strictly greater than the 50-character floor, for EVERY
behaviour of the external splitter; but full coverage of each page's
original text does NOT hold — a page of stripped length below 100 emits
no chunks at all, and chunks of stripped length ≤ 50 are silently dropped
(see the counterexample). -/
theorem chunk_minimum_length_floor
    (summarize : String → String → String)
    (splitter : Nat → Nat → String → List String)
    (files : List PdfFile) (out : DocIndex × ChunkIndex)
    (h : create_hierarchical_vectorstore summarize splitter files =
      Except.ok out) :
    ∀ cd ∈ out.2, 50 < strLen (pyStrip cd.text) := by
  intro cd hcd
  simp only [create_hierarchical_vectorstore] at h
  split at h
  · exact Except.noConfusion h
  · injection h with h'
    subst h'
    obtain ⟨c, hc, hcd2⟩ := List.mem_flatMap.mp hcd
    obtain ⟨f, hf, hfc⟩ := List.mem_filterMap.mp hc
    exact fileContribution_chunk_floor hfc cd hcd2

/-- The page record of `fileA`'s single page. -/
def pdA : PageData := ⟨page120, 1, "a.pdf", "a.pdf", "", "", 120, 120⟩

/-- The single chunk emitted for `fileA`. -/
def chunkFixA : ChunkDoc := ⟨page120, pdA, 0, 120, 1⟩

/-- The output of the builder on `[fileA]`. -/
def buildOutFixA : DocIndex × ChunkIndex :=
  ([(page120, ⟨"a.pdf", 1, 120⟩)], [chunkFixA])

/-- Witness for the amended C7: a concrete successful build whose emitted
chunk respects the floor. -/
theorem chunk_minimum_length_floor_witness :
    create_hierarchical_vectorstore idSummarize idSplitter [fileA] =
      Except.ok buildOutFixA ∧
    50 < strLen (pyStrip chunkFixA.text) :=
  ⟨by decide,
    chunk_minimum_length_floor idSummarize idSplitter [fileA] buildOutFixA
      (by decide) chunkFixA (by decide)⟩

/-- The concatenated text of `fileTwoPages`. -/
def fullTextD : String := page120 ++ " " ++ page60

def pd1D : PageData := ⟨page120, 1, "d.pdf", "d.pdf", "", "", 120, 120⟩

def pd2D : PageData := ⟨page60, 2, "d.pdf", "d.pdf", "", "", 60, 60⟩

/-- The output of the builder on `[fileTwoPages]`. -/
def twoPageOut : DocIndex × ChunkIndex :=
  ([(fullTextD, ⟨"d.pdf", 2, 181⟩)], [⟨page120, pd1D, 0, 120, 1⟩])

/-- C7 counterexample: page 2 of `fileTwoPages` enters the builder with 60
characters of nonblank text and the build succeeds, yet NO chunk for page
2 is emitted (the page is below the 100-character per-page floor), so the
concatenation of the chunks derived from that page is empty and cannot
cover its text. -/
theorem short_page_emits_no_chunk_cex :
    extract_text_with_metadata fileTwoPages = Except.ok [pd1D, pd2D] ∧
    pd2D.text ≠ "" ∧
    create_hierarchical_vectorstore idSummarize idSplitter [fileTwoPages] =
      Except.ok twoPageOut ∧
    twoPageOut.2.filter (fun cd => cd.meta.page == 2) = [] :=
  ⟨by decide, by decide, by decide, by decide⟩

/-! ## Cache lemmas (v6 and v5) -/

theorem tryLoadCache_hit {s : StateV6} {cur : Bytes} {d : DocIndex}
    {c : ChunkIndex} (hd : s.docStore = some d) (hc : s.chunkStore = some c)
    (hh : s.hashFile = some cur) : tryLoadCache s cur = some (d, c) := by
  simp [tryLoadCache, hd, hc, hh]

theorem tryLoadCache_miss_hash {s : StateV6} {cur h' : Bytes}
    (hh : s.hashFile = some h') (hne : h' ≠ cur) :
    tryLoadCache s cur = none := by
  cases hd : s.docStore <;> cases hc : s.chunkStore <;>
    simp [tryLoadCache, hd, hc, hh, hne]

theorem tryLoadCache_eq_some {s : StateV6} {cur : Bytes}
    {dc : DocIndex × ChunkIndex} (h : tryLoadCache s cur = some dc) :
    s.docStore = some dc.1 ∧ s.chunkStore = some dc.2 ∧
      s.hashFile = some cur := by
  cases hd : s.docStore with
  | none => simp [tryLoadCache, hd] at h
  | some d =>
    cases hc : s.chunkStore with
    | none => simp [tryLoadCache, hd, hc] at h
    | some c =>
      cases hh : s.hashFile with
      | none => simp [tryLoadCache, hd, hc, hh] at h
      | some hv =>
        simp only [tryLoadCache, hd, hc, hh] at h
        by_cases he : hv = cur
        · subst he
          rw [if_pos rfl] at h
          injection h with h'
          subst h'
          exact ⟨rfl, rfl, rfl⟩
        · rw [if_neg he] at h
          exact Option.noConfusion h

/-- The v6 cache hit path. -/
theorem processV6_load (summarize : String → String → String)
    (splitter : Nat → Nat → String → List String) (fail : FailPoint)
    (dir : Dir) (s : StateV6) (dc : DocIndex × ChunkIndex)
    (htl : tryLoadCache s (compute_documents_hash dir) = some dc) :
    process_documents_with_caching summarize splitter fail dir s =
      ⟨some dc, s, false, true⟩ := by
  unfold process_documents_with_caching
  rw [htl]

/-- The v6 cache miss path. -/
theorem processV6_rebuild (summarize : String → String → String)
    (splitter : Nat → Nat → String → List String) (fail : FailPoint)
    (dir : Dir) (s : StateV6)
    (htl : tryLoadCache s (compute_documents_hash dir) = none) :
    process_documents_with_caching summarize splitter fail dir s =
      rebuildV6 summarize splitter fail dir s
        (compute_documents_hash dir) := by
  unfold process_documents_with_caching
  rw [htl]

/-- Whenever the rebuild path runs on a directory that still holds a
`.pdf` file, the index builder is invoked (whether or not it succeeds). -/
theorem rebuildV6_invoked {summarize : String → String → String}
    {splitter : Nat → Nat → String → List String} {dir : Dir} {s : StateV6}
    {cur : Bytes} (hpdfs : pdfFilesOf dir ≠ []) :
    (rebuildV6 summarize splitter FailPoint.none dir s cur).builderInvoked =
      true := by
  unfold rebuildV6
  rw [if_neg (by simp [List.isEmpty_iff, hpdfs]), if_neg (by decide)]
  split
  · rfl
  · rw [if_neg (by decide), if_neg (by decide)]

/-- A successful `FailPoint.none` rebuild writes through both stores and
the fingerprint. -/
theorem rebuildV6_success {summarize : String → String → String}
    {splitter : Nat → Nat → String → List String} {dir : Dir} {s : StateV6}
    {cur : Bytes} {d : DocIndex} {c : ChunkIndex}
    (hpdfs : pdfFilesOf dir ≠ [])
    (hb : create_hierarchical_vectorstore summarize splitter
      (pdfFilesOf dir) = Except.ok (d, c)) :
    rebuildV6 summarize splitter FailPoint.none dir s cur =
      ⟨some (d, c), ⟨some d, some c, some cur⟩, true, false⟩ := by
  unfold rebuildV6
  rw [if_neg (by simp [List.isEmpty_iff, hpdfs]), hb]
  rfl

/-- A failing rebuild returns `(None, None)` and leaves the state's
fingerprint unchanged. -/
theorem rebuildV6_hashFile_of_not_success
    {summarize : String → String → String}
    {splitter : Nat → Nat → String → List String} {fail : FailPoint}
    {dir : Dir} {s : StateV6} {cur : Bytes} {r : ResultV6}
    (hr : rebuildV6 summarize splitter fail dir s cur = r)
    (h : r.state.hashFile ≠ s.hashFile) :
    fail = FailPoint.none ∧
    ∃ d c, create_hierarchical_vectorstore summarize splitter
        (pdfFilesOf dir) = Except.ok (d, c) ∧
      r = ⟨some (d, c), ⟨some d, some c, some cur⟩, true, false⟩ := by
  unfold rebuildV6 at hr
  split at hr
  · subst hr
    exact absurd rfl h
  · split at hr
    · subst hr
      exact absurd rfl h
    · split at hr
      · subst hr
        exact absurd rfl h
      · rename_i hnb hd hc hcv
        split at hr
        · subst hr
          exact absurd rfl h
        · split at hr
          · subst hr
            exact absurd rfl h
          · rename_i hnsd hnsc
            subst hr
            refine ⟨?_, _, _, hcv, rfl⟩
            cases fail <;> simp_all

/-- Without the probed `vectorstore.index` file the v5 probe fails,
whatever the hash files say. -/
theorem tryLoadV5_none_of_no_probe {s : StateV5} {cur : Bytes}
    (h : s.vectorstoreIndexFile = none) : tryLoadV5 s cur = none := by
  cases hh : s.hash <;> simp [tryLoadV5, h, hh]

/-- With no `vectorstore.index` file, v5 always takes the rebuild path. -/
theorem processV5_no_cache_rebuild (chunk_text : String → List String)
    (dir : Dir) {s : StateV5} (h : s.vectorstoreIndexFile = none) :
    process_documents chunk_text dir s =
      rebuildV5 chunk_text dir s (compute_documents_hash dir) := by
  unfold process_documents
  rw [tryLoadV5_none_of_no_probe h]

/-- The v5 rebuild path always invokes the builder (there is no
empty-directory check in v5). -/
theorem rebuildV5_invoked (chunk_text : String → List String) (dir : Dir)
    (s : StateV5) (cur : Bytes) :
    (rebuildV5 chunk_text dir s cur).builderInvoked = true := by
  unfold rebuildV5
  split <;> rfl

/-- The v5 rebuild never creates `vectorstore.index` (`save_local` writes
`index.faiss`/`index.pkl` only). -/
theorem rebuildV5_preserves_probe (chunk_text : String → List String)
    (dir : Dir) (s : StateV5) (cur : Bytes) :
    (rebuildV5 chunk_text dir s cur).state.vectorstoreIndexFile =
      s.vectorstoreIndexFile := by
  unfold rebuildV5
  split <;> rfl

/-- After a successful v6 call (cache hit or full rebuild), the persisted
state holds both stores and the current fingerprint. -/
theorem processV6_success_state {summarize : String → String → String}
    {splitter : Nat → Nat → String → List String} {dir : Dir}
    {s : StateV6} {r : ResultV6}
    (hr : process_documents_with_caching summarize splitter FailPoint.none
      dir s = r) (hres : r.result ≠ none) :
    ∃ dc : DocIndex × ChunkIndex, r.result = some dc ∧
      r.state.docStore = some dc.1 ∧ r.state.chunkStore = some dc.2 ∧
      r.state.hashFile = some (compute_documents_hash dir) := by
  unfold process_documents_with_caching at hr
  split at hr
  · rename_i dc htl
    subst hr
    obtain ⟨h1, h2, h3⟩ := tryLoadCache_eq_some htl
    exact ⟨dc, rfl, h1, h2, h3⟩
  · unfold rebuildV6 at hr
    split at hr
    · subst hr
      exact absurd rfl hres
    · split at hr
      · subst hr
        exact absurd rfl hres
      · split at hr
        · subst hr
          exact absurd rfl hres
        · split at hr
          · subst hr
            exact absurd rfl hres
          · split at hr
            · subst hr
              exact absurd rfl hres
            · subst hr
              exact ⟨_, rfl, rfl, rfl, rfl⟩

/-- C1 (amended): for v6 (`process_documents_with_caching`), after any
successful first call, a second call whose corpus hashes to the SAME
digest (in particular an unchanged corpus) loads the persisted indexes and
returns them without invoking the builder, and a second call whose corpus
hashes to a DIFFERENT digest performs a full rebuild (provided at least
one `.pdf` file remains); because only file bytes are hashed, adding or
removing a zero-byte `.pdf` leaves the digest unchanged and does NOT
trigger a rebuild (see the counterexample).  For v5
(`process_documents`), the cache probe checks
`vectorstore/vectorstore.index`, a file `save_local` never creates (it
writes `index.faiss`/`index.pkl`), so the load path is unreachable across
the program's own runs: whenever that probed file is absent — as it is
initially and after every call — EVERY call, including a second call on an
unchanged corpus, re-invokes the index builder. -/
theorem cache_second_call_behavior
    (summarize : String → String → String)
    (splitter : Nat → Nat → String → List String)
    (chunk_text : String → List String)
    (dir₁ dir₂ : Dir) (s₀ : StateV6) (t₀ : StateV5)
    (r₁ : ResultV6) (q₁ : ResultV5)
    (hr₁ : process_documents_with_caching summarize splitter FailPoint.none
      dir₁ s₀ = r₁)
    (hq₁ : process_documents chunk_text dir₁ t₀ = q₁) :
    (r₁.result ≠ none →
      compute_documents_hash dir₂ = compute_documents_hash dir₁ →
      process_documents_with_caching summarize splitter FailPoint.none dir₂
        r₁.state = ⟨r₁.result, r₁.state, false, true⟩) ∧
    (r₁.result ≠ none →
      compute_documents_hash dir₂ ≠ compute_documents_hash dir₁ →
      pdfFilesOf dir₂ ≠ [] →
      (process_documents_with_caching summarize splitter FailPoint.none dir₂
        r₁.state).builderInvoked = true) ∧
    (t₀.vectorstoreIndexFile = none →
      q₁.builderInvoked = true ∧
      q₁.state.vectorstoreIndexFile = none ∧
      (process_documents chunk_text dir₂ q₁.state).builderInvoked =
        true) := by
  refine ⟨fun hres hhash => ?_, fun hres hne hpdfs => ?_,
    fun hprobe => ?_⟩
  · obtain ⟨dc, hdc, h1, h2, h3⟩ := processV6_success_state hr₁ hres
    have htl₂ : tryLoadCache r₁.state (compute_documents_hash dir₂) =
        some dc :=
      tryLoadCache_hit h1 h2 (by rw [h3, hhash])
    rw [processV6_load summarize splitter FailPoint.none dir₂ r₁.state dc
      htl₂, hdc]
  · obtain ⟨dc, hdc, h1, h2, h3⟩ := processV6_success_state hr₁ hres
    have htl₂ : tryLoadCache r₁.state (compute_documents_hash dir₂) =
        none :=
      tryLoadCache_miss_hash h3 (Ne.symm hne)
    rw [processV6_rebuild summarize splitter FailPoint.none dir₂ r₁.state
      htl₂]
    exact rebuildV6_invoked hpdfs
  · have hq₁' : q₁ =
        rebuildV5 chunk_text dir₁ t₀ (compute_documents_hash dir₁) := by
      rw [← hq₁, processV5_no_cache_rebuild chunk_text dir₁ hprobe]
    have hqprobe : q₁.state.vectorstoreIndexFile = none := by
      rw [hq₁', rebuildV5_preserves_probe, hprobe]
    refine ⟨?_, hqprobe, ?_⟩
    · rw [hq₁']
      exact rebuildV5_invoked chunk_text dir₁ t₀ _
    · rw [processV5_no_cache_rebuild chunk_text dir₂ hqprobe]
      exact rebuildV5_invoked chunk_text dir₂ q₁.state _

/-- Witness for the amended C1: concrete first and second calls — for v6
an unchanged directory (cache served, no build) and a non-empty PDF added
(full rebuild); for v5 an unchanged directory, where the second call
nevertheless rebuilds. -/
theorem cache_second_call_behavior_witness :
    (process_documents_with_caching idSummarize idSplitter FailPoint.none
        [fileA]
        (process_documents_with_caching idSummarize idSplitter
          FailPoint.none [fileA] emptyStateV6).state).builderInvoked =
      false ∧
    (process_documents_with_caching idSummarize idSplitter FailPoint.none
        [fileA, fileC]
        (process_documents_with_caching idSummarize idSplitter
          FailPoint.none [fileA] emptyStateV6).state).builderInvoked =
      true ∧
    (process_documents (fun t => [t]) [fileA]
      emptyStateV5).builderInvoked = true ∧
    (process_documents (fun t => [t]) [fileA]
        (process_documents (fun t => [t]) [fileA]
          emptyStateV5).state).builderInvoked = true :=
  ⟨by rw [((cache_second_call_behavior idSummarize idSplitter (fun t => [t])
      [fileA] [fileA] emptyStateV6 emptyStateV5 _ _ rfl rfl).1
      (by decide) rfl)],
    (cache_second_call_behavior idSummarize idSplitter (fun t => [t])
      [fileA] [fileA, fileC] emptyStateV6 emptyStateV5 _ _ rfl rfl).2.1
      (by decide) (by decide) (by decide),
    ((cache_second_call_behavior idSummarize idSplitter (fun t => [t])
      [fileA] [fileA] emptyStateV6 emptyStateV5 _ _ rfl rfl).2.2 rfl).1,
    ((cache_second_call_behavior idSummarize idSplitter (fun t => [t])
      [fileA] [fileA] emptyStateV6 emptyStateV5 _ _ rfl rfl).2.2 rfl).2.2⟩

/-- C1 counterexample: a PDF is ADDED between two calls — the zero-byte
`b.pdf` — yet the second call does NOT rebuild: it serves the cached
indexes, because the fingerprint hashes only file bytes.  (The first call
did invoke the builder.) -/
theorem cache_no_rebuild_after_zero_byte_addition_cex :
    (process_documents_with_caching idSummarize idSplitter FailPoint.none
      [fileA] emptyStateV6).builderInvoked = true ∧
    (process_documents_with_caching idSummarize idSplitter FailPoint.none
        [fileA, fileB0]
        (process_documents_with_caching idSummarize idSplitter
          FailPoint.none [fileA] emptyStateV6).state).builderInvoked =
      false ∧
    (process_documents_with_caching idSummarize idSplitter FailPoint.none
        [fileA, fileB0]
        (process_documents_with_caching idSummarize idSplitter
          FailPoint.none [fileA] emptyStateV6).state).loadedFromCache =
      true :=
  ⟨by decide, by decide, by decide⟩

/-- C10: a call of `process_documents_with_caching` changes the persisted
fingerprint file ONLY when no external step failed, the hierarchical build
succeeded, and both vector stores were saved: the final state then holds
exactly the two freshly built stores together with the new fingerprint.
Contrapositively, a rebuild that fails at the build, at the document-store
save, or at the chunk-store save leaves `documents_hash.txt` untouched. -/
theorem hash_written_only_after_both_saves
    (summarize : String → String → String)
    (splitter : Nat → Nat → String → List String) (fail : FailPoint)
    (dir : Dir) (s : StateV6) (r : ResultV6)
    (hr : process_documents_with_caching summarize splitter fail dir s = r)
    (h : r.state.hashFile ≠ s.hashFile) :
    fail = FailPoint.none ∧
    ∃ d c, create_hierarchical_vectorstore summarize splitter
        (pdfFilesOf dir) = Except.ok (d, c) ∧
      r = ⟨some (d, c),
        ⟨some d, some c, some (compute_documents_hash dir)⟩, true,
        false⟩ := by
  unfold process_documents_with_caching at hr
  split at hr
  · subst hr
    exact absurd rfl h
  · exact rebuildV6_hashFile_of_not_success hr h

/-- Witness for C10: a concrete first build that does change the
fingerprint file. -/
theorem hash_written_only_after_both_saves_witness :
    (process_documents_with_caching idSummarize idSplitter FailPoint.none
        [fileA] emptyStateV6).state.hashFile ≠ emptyStateV6.hashFile ∧
    (FailPoint.none = FailPoint.none ∧
      ∃ d c, create_hierarchical_vectorstore idSummarize idSplitter
          (pdfFilesOf [fileA]) = Except.ok (d, c) ∧
        process_documents_with_caching idSummarize idSplitter
            FailPoint.none [fileA] emptyStateV6 =
          ⟨some (d, c),
            ⟨some d, some c, some (compute_documents_hash [fileA])⟩, true,
            false⟩) :=
  ⟨by decide,
    hash_written_only_after_both_saves idSummarize idSplitter
      FailPoint.none [fileA] emptyStateV6 _ rfl (by decide)⟩
